import Mathlib

/-!
Shallow embedding of the urbanIQ acquisition-and-harmonization core:
  * `src/app/services/processing_service.py` (harmonization pipeline),
  * `src/app/services/data_service.py` (acquisition orchestrator),
  * `src/app/connectors/base.py` (resilient request client).

Geometries, coordinate transformation and geometric clipping are abstracted:
a geometry is represented only by how it behaves under `is_valid` and
`buffer(0)` (the two shapely operations the pipeline inspects), reprojection
and clipping are opaque parameters of the model.  Everything else follows the
Python source line by line; fields of the Python result dictionaries that no
claim touches (runtime statistics, predefined metadata, spatial extents,
timestamps) are omitted, with a note at the definition that drops them.
-/

namespace UrbanIQ

/-- `TARGET_CRS` from processing_service.py line 19. -/
def TARGET_CRS : String := "EPSG:25833"

/-- Abstraction of a shapely geometry, classified by its behaviour under the
only two geometry operations the pipeline uses: `is_valid` and `buffer(0)`.
`invalidFixable`: invalid, `buffer(0)` returns a valid geometry.
`invalidUnfixable`: invalid, `buffer(0)` returns a still-invalid geometry.
`invalidRaises`: invalid, `buffer(0)` raises (e.g. a GeometryCollection,
for which the GEOS buffer operation is unsupported). -/
inductive Geom where
  | valid
  | invalidFixable
  | invalidUnfixable
  | invalidRaises
  deriving DecidableEq, Repr

/-- shapely `geometry.is_valid`. -/
def Geom.is_valid : Geom → Bool
  | .valid => true
  | _ => false

/-- shapely `geometry.buffer(0)`, the repair strategy of
`_validate_geometries` (processing_service.py line 305). -/
def Geom.buffer0 : Geom → Except String Geom
  | .valid => .ok .valid
  | .invalidFixable => .ok .valid
  | .invalidUnfixable => .ok .invalidUnfixable
  | .invalidRaises => .error "buffer operation raised"

/-- One row of a GeoDataFrame: a geometry plus the non-geometry columns
(free-form attributes, modelled as key/value pairs). -/
structure Feature where
  geom : Geom
  attrs : List (String × String)
  deriving DecidableEq, Repr

/-- A GeoDataFrame: a declared CRS (or none) and an ordered list of rows. -/
structure GeoFrame where
  crs : Option String
  features : List Feature
  deriving DecidableEq, Repr

/-- Opaque geometric operations of the pipeline.
`reproject c f` models `to_crs(TARGET_CRS)` applied to a feature whose frame
declared CRS `c`; `clipResult g b` models `gpd.clip(g, b)` (together with the
`boundary.to_crs(gdf.crs)` realignment preceding it), with `none` standing
for the clip operation raising. -/
structure GeoEnv where
  reproject : String → Feature → Feature
  clipResult : List Feature → List Feature → Option (List Feature)

/-- `ProcessingService._standardize_crs` (processing_service.py lines 224-245):
empty frame is rebuilt with the target CRS; a missing CRS is assumed to be the
target CRS (`set_crs`, coordinates untouched); a differing CRS is reprojected
(`to_crs`). -/
def standardize_crs (env : GeoEnv) (gdf : GeoFrame) : GeoFrame :=
  if gdf.features.isEmpty then { crs := some TARGET_CRS, features := [] }
  else
    match gdf.crs with
    | none => { gdf with crs := some TARGET_CRS }
    | some c =>
      if c = TARGET_CRS then gdf
      else { crs := some TARGET_CRS, features := gdf.features.map (env.reproject c) }

/-- `ProcessingService._clip_to_boundary` (lines 247-279): empty input or
empty boundary is returned unchanged; a raising clip falls back to the
unclipped frame. -/
def clip_to_boundary (env : GeoEnv) (gdf boundary : GeoFrame) : GeoFrame :=
  if gdf.features.isEmpty || boundary.features.isEmpty then gdf
  else
    match env.clipResult gdf.features boundary.features with
    | some clipped => { gdf with features := clipped }
    | none => gdf

/-- The `gdf.loc[invalid_mask, "geometry"].buffer(0)` step of
`_validate_geometries` (line 305): `buffer(0)` is applied to exactly the
invalid geometries, in place; if the buffer operation raises on any of them
the whole step raises. -/
def repair_invalid : List Feature → Except String (List Feature)
  | [] => .ok []
  | f :: rest =>
    if f.geom.is_valid then do
      let r ← repair_invalid rest
      .ok (f :: r)
    else
      match f.geom.buffer0 with
      | .error e => .error e
      | .ok g => do
        let r ← repair_invalid rest
        .ok ({ f with geom := g } :: r)

/-- `ProcessingService._validate_geometries` (lines 281-313): count invalid
geometries (`invalid_count`, the first filter); if any, repair them with
`buffer(0)`; if geometries are still invalid after repair (`still_invalid`,
the second filter) they are removed. -/
def validate_geometries (gdf : GeoFrame) : Except String GeoFrame :=
  if gdf.features.isEmpty then .ok gdf
  else if 0 < (gdf.features.filter (fun f => ! f.geom.is_valid)).length then do
    let repaired ← repair_invalid gdf.features
    if 0 < (repaired.filter (fun f => ! f.geom.is_valid)).length then
      .ok { gdf with features := repaired.filter (fun f => f.geom.is_valid) }
    else
      .ok { gdf with features := repaired }
  else .ok gdf

/-- One row of the standardized output schema (`STANDARD_SCHEMA`,
processing_service.py lines 22-29).  The four key fields are `Option`-valued
to model pandas nullability (`notna`); the pipeline always fills them. -/
structure HarmFeature where
  feature_id : Option String
  dataset_type : Option String
  source_system : Option String
  bezirk : Option String
  geom : Geom
  original_attributes : List (String × String)
  deriving DecidableEq, Repr

/-- A schema-standardized GeoDataFrame. -/
structure HarmFrame where
  crs : Option String
  features : List HarmFeature
  deriving DecidableEq, Repr

/-- The row construction of `_standardize_schema` (lines 344-351):
`feature_id = f"{dataset_type}_{i}"`, constant kind/source/district columns,
geometry carried over, all original non-geometry columns moved into
`original_attributes`. -/
def number_features (dtype source target : String) : Nat → List Feature → List HarmFeature
  | _, [] => []
  | i, f :: rest =>
    { feature_id := some (dtype ++ "_" ++ toString i)
    , dataset_type := some dtype
    , source_system := some source
    , bezirk := some target
    , geom := f.geom
    , original_attributes := f.attrs } :: number_features dtype source target (i + 1) rest

/-- `ProcessingService._standardize_schema` (lines 315-353): empty input
yields an empty standardized frame with the target CRS; otherwise the rows
are rebuilt against the standard schema, keeping the frame's CRS. -/
def standardize_schema (gdf : GeoFrame) (dtype source target : String) : HarmFrame :=
  if gdf.features.isEmpty then { crs := some TARGET_CRS, features := [] }
  else { crs := gdf.crs, features := number_features dtype source target 0 gdf.features }

/-- One entry of the list handed from `DataService` to `ProcessingService`
(the dict built in `_fetch_single_dataset`, data_service.py lines 260-267).
`geodata := none` models a payload that is not a GeoDataFrame (the `None`
used in test_processing_service.py line 209, on which `.empty` raises).
`dataset_id` (a log label), `predefined_metadata` and `runtime_stats` are
not consulted by any claim and are omitted. -/
structure RawDataset where
  dataset_type : String
  source : String
  geodata : Option GeoFrame
  deriving DecidableEq, Repr

/-- `ProcessingService._process_single_dataset` (lines 184-222): empty
payload short-circuits to an empty standardized frame; otherwise CRS
standardization, spatial clip (skipped for the boundary kind), geometry
validation/repair, schema standardization, in that order. -/
def process_single_dataset (env : GeoEnv) (ds : RawDataset) (boundary : GeoFrame)
    (target : String) : Except String HarmFrame := do
  let gdf ← match ds.geodata with
    | none => .error "AttributeError: geodata has no attribute empty"
    | some g => .ok g
  if gdf.features.isEmpty then
    .ok { crs := some TARGET_CRS, features := [] }
  else
    let gdf := standardize_crs env gdf
    let gdf := if ds.dataset_type ≠ "bezirksgrenzen" then clip_to_boundary env gdf boundary else gdf
    let gdf ← validate_geometries gdf
    .ok (standardize_schema gdf ds.dataset_type ds.source target)

/-- `ProcessingService._extract_district_boundary` (lines 145-182): take the
first dataset whose `dataset_type` is `"bezirksgrenzen"`; fail if none, if
its payload is not a frame, or if the frame is empty; standardize its CRS. -/
def extract_district_boundary (env : GeoEnv) (datasets : List RawDataset)
    (target : String) : Except String GeoFrame := do
  let dd ← match datasets.find? (fun d => d.dataset_type = "bezirksgrenzen") with
    | none => .error "District boundary dataset not found in input datasets"
    | some d => .ok d
  let gdf ← match dd.geodata with
    | none => .error "AttributeError: geodata has no attribute empty"
    | some g => .ok g
  if gdf.features.isEmpty then .error ("Empty district boundary for " ++ target)
  else .ok (standardize_crs env gdf)

/-- The `processing_stats` accumulator of `harmonize_datasets` (line 81). -/
structure ProcessingStats where
  datasets_processed : Nat
  datasets_failed : Nat
  total_features : Nat
  deriving DecidableEq, Repr

/-- The per-dataset loop of `harmonize_datasets` (lines 83-97): each dataset
is processed; a raising dataset is counted as failed and excluded, the rest
are collected in order. -/
def harmonize_loop (env : GeoEnv) (boundary : GeoFrame) (target : String) :
    List RawDataset → List HarmFrame × ProcessingStats
  | [] => ([], ⟨0, 0, 0⟩)
  | ds :: rest =>
    let (frames, stats) := harmonize_loop env boundary target rest
    match process_single_dataset env ds boundary target with
    | .ok hf =>
      (hf :: frames,
       { stats with
           datasets_processed := stats.datasets_processed + 1
           total_features := stats.total_features + hf.features.length })
    | .error _ =>
      (frames, { stats with datasets_failed := stats.datasets_failed + 1 })

/-- Python `round(q, n)` as used throughout `_calculate_quality_stats`
(half-way cases are immaterial to every claim below). -/
def roundTo (n : Nat) (q : ℚ) : ℚ := ((round (q * (10 : ℚ) ^ n) : ℤ) : ℚ) / (10 : ℚ) ^ n

/-- `valid_geometries / total_features` (lines 383-384), before rounding. -/
def geometry_validity_ratio (fs : List HarmFeature) : ℚ :=
  ((fs.filter (fun f => f.geom.is_valid)).length : ℚ) / (fs.length : ℚ)

/-- `min(100.0, (total_features / 1000) * 100)` (line 400), before rounding. -/
def coverage_percentage (fs : List HarmFeature) : ℚ :=
  min 100 ((fs.length : ℚ) / 1000 * 100)

/-- `non_null_count / total_features` for one key field (lines 408-411). -/
def field_completeness (f : HarmFeature → Option String) (fs : List HarmFeature) : ℚ :=
  ((fs.filter (fun x => (f x).isSome)).length : ℚ) / (fs.length : ℚ)

/-- The mean completeness over the four key fields
`["feature_id", "dataset_type", "source_system", "bezirk"]` (lines 406-413);
for schema-standardized frames all four columns are present, so the mean is
over exactly four ratios. -/
def attribute_completeness_ratio (fs : List HarmFeature) : ℚ :=
  (field_completeness HarmFeature.feature_id fs
    + field_completeness HarmFeature.dataset_type fs
    + field_completeness HarmFeature.source_system fs
    + field_completeness HarmFeature.bezirk fs) / 4

/-- The weighted quality score of line 416-420, before the final rounding. -/
def quality_formula (fs : List HarmFeature) : ℚ :=
  geometry_validity_ratio fs * 0.4 + attribute_completeness_ratio fs * 0.4
    + coverage_percentage fs / 100 * 0.2

/-- The quality dictionary of `_calculate_quality_stats` (lines 355-432).
`datasets_by_type` and `spatial_extent` are not consulted by any claim and
are omitted. -/
structure QualityStats where
  total_features : Nat
  geometry_validity_score : ℚ
  spatial_coverage_percentage : ℚ
  attribute_completeness_score : ℚ
  crs_consistency : Bool
  quality_score : ℚ
  deriving DecidableEq, Repr

/-- `ProcessingService._calculate_quality_stats` (lines 355-432): the empty
frame gets the all-zero report; otherwise validity, coverage and completeness
ratios are computed over the final harmonized set and combined as
`0.4 / 0.4 / 0.2`, each reported value passing through Python `round`. -/
def calculate_quality_stats (fs : List HarmFeature) : QualityStats :=
  if fs.isEmpty then
    { total_features := 0
    , geometry_validity_score := 0
    , spatial_coverage_percentage := 0
    , attribute_completeness_score := 0
    , crs_consistency := true
    , quality_score := 0 }
  else
    { total_features := fs.length
    , geometry_validity_score := roundTo 3 (geometry_validity_ratio fs)
    , spatial_coverage_percentage := roundTo 2 (coverage_percentage fs)
    , attribute_completeness_score := roundTo 3 (attribute_completeness_ratio fs)
    , crs_consistency := true
    , quality_score := roundTo 3 (quality_formula fs) }

/-- The result dictionary of `harmonize_datasets` (lines 125-133);
`processing_duration_ms` is wall-clock time and is omitted. -/
structure HarmonizeResult where
  harmonized_data : HarmFrame
  processing_stats : ProcessingStats
  quality_stats : QualityStats
  target_district : String
  total_datasets : Nat
  successful_datasets : Nat
  deriving DecidableEq, Repr

/-- Lines 100-106 of `harmonize_datasets`: concatenate the surviving
per-dataset frames (or build the empty schema frame), stamping the target
CRS (line 102). -/
def combine_frames (frames : List HarmFrame) : HarmFrame :=
  if frames.isEmpty then { crs := some TARGET_CRS, features := [] }
  else { crs := some TARGET_CRS, features := (frames.map HarmFrame.features).flatten }

/-- The result record returned on the success path of `harmonize_datasets`
(lines 125-133). -/
def mk_harmonize_result (env : GeoEnv) (boundary : GeoFrame) (target : String)
    (datasets : List RawDataset) : HarmonizeResult :=
  { harmonized_data := combine_frames (harmonize_loop env boundary target datasets).1
  , processing_stats := (harmonize_loop env boundary target datasets).2
  , quality_stats :=
      calculate_quality_stats (combine_frames (harmonize_loop env boundary target datasets).1).features
  , target_district := target
  , total_datasets := datasets.length
  , successful_datasets := (harmonize_loop env boundary target datasets).2.datasets_processed }

/-- `ProcessingService.harmonize_datasets` (lines 44-143): reject an empty
input list (`ValueError`, raised before the `try` block); extract the
district boundary (any exception there is wrapped into `ProcessingError`);
run every dataset through the pipeline with per-dataset exception capture;
concatenate the surviving frames, stamping the target CRS, and attach
quality statistics.  Only boundary extraction can raise inside the `try`,
so the `ProcessingError` wrap applies exactly to it. -/
def harmonize_datasets (env : GeoEnv) (datasets : List RawDataset) (target : String) :
    Except String HarmonizeResult :=
  if datasets.isEmpty then .error "ValueError: No datasets provided for harmonization"
  else
    match extract_district_boundary env datasets target with
    | .error e =>
      .error ("ProcessingError: Failed to harmonize datasets for " ++ target ++ ": " ++ e)
    | .ok boundary => .ok (mk_harmonize_result env boundary target datasets)

/-- The keys of `DATASET_CONNECTOR_MAPPING` (data_service.py lines 26-30):
the dataset kinds the orchestrator knows a connector for. -/
def DATASET_CONNECTOR_MAPPING : List String :=
  ["bezirksgrenzen", "gebaeude", "oepnv_haltestellen"]

/-- Outcomes of the three connector fetch methods for one run.
`fetch_district_boundary` takes no frame argument; the buildings and
transit-stop fetches receive the district frame for spatial pre-filtering
(data_service.py lines 241-251).  An `.error` models the connector raising. -/
structure ConnectorEnv where
  boundaryFetch : Except String GeoFrame
  buildingsFetch : GeoFrame → Except String GeoFrame
  osmFetch : GeoFrame → Except String GeoFrame

/-- The per-kind dispatch inside the `try` block of `_fetch_single_dataset`
(lines 241-253; the buildings and transit tasks first re-fetch the district
boundary themselves), paired with the `source` label of line 263. -/
def connector_dispatch (env : ConnectorEnv) (dtype : String) :
    Except String (GeoFrame × String) :=
  if dtype = "bezirksgrenzen" then
    env.boundaryFetch.map (fun g => (g, "geoportal"))
  else if dtype = "gebaeude" then do
    let district ← env.boundaryFetch
    let g ← env.buildingsFetch district
    .ok (g, "geoportal")
  else do
    let district ← env.boundaryFetch
    let g ← env.osmFetch district
    .ok (g, "osm")

/-- `DataService._fetch_single_dataset` (lines 220-281): dispatch on the
kind, wrap any raised exception into
`ConnectorError("Failed to fetch {kind} for {bezirk}: ...")`, and package a
successful frame into the standardized dataset dictionary.  The unknown-kind
guard of line 234 raises before the `try` block and is therefore unwrapped.
Runtime statistics and predefined metadata are not consulted by any claim
and are omitted from the packaged record. -/
def fetch_single_dataset (env : ConnectorEnv) (bezirk dtype : String) :
    Except String RawDataset :=
  if dtype ∉ DATASET_CONNECTOR_MAPPING then
    .error ("Unsupported dataset type: " ++ dtype)
  else
    match connector_dispatch env dtype with
    | .error e => .error ("Failed to fetch " ++ dtype ++ " for " ++ bezirk ++ ": " ++ e)
    | .ok (g, src) =>
      .ok { dataset_type := dtype
          , source := src
          , geodata := some g }

/-- The result-processing loop of `_execute_parallel_fetch` (lines 159-199):
walk the per-task results in task order; a failed boundary task raises
`ConnectorError` (aborting the whole call); any other failed task is appended
to `failed_datasets`; successful results are collected in order.  The second
component is the `failed_datasets` list, which the Python function only
**logs** (lines 206-216) — its return value is the first component alone. -/
def collect_results (bezirk : String) :
    List (String × Except String RawDataset) →
      Except String (List RawDataset × List String)
  | [] => .ok ([], [])
  | (d, r) :: rest =>
    match r with
    | .error e =>
      if d = "bezirksgrenzen" then
        .error ("Failed to fetch district boundary for " ++ bezirk ++ ": " ++ e)
      else do
        let tail ← collect_results bezirk rest
        .ok (tail.1, d :: tail.2)
    | .ok res => do
      let tail ← collect_results bezirk rest
      .ok (res :: tail.1, tail.2)

/-- `DataService._execute_parallel_fetch` (lines 122-218): launch one task
per known kind (unknown kinds are dropped with only a warning, lines
143-149), then fold the results.  The returned pair is
(`successful_results`, `failed_datasets`); Python returns only the first
component and merely logs the second. -/
def execute_parallel_fetch (env : ConnectorEnv) (bezirk : String)
    (datasets : List String) : Except String (List RawDataset × List String) :=
  collect_results bezirk
    ((datasets.filter (fun d => d ∈ DATASET_CONNECTOR_MAPPING)).map
      (fun d => (d, fetch_single_dataset env bezirk d)))

/-- The kind list actually fetched for a request: `"bezirksgrenzen"`
prepended, caller-supplied occurrences of it removed (data_service.py
line 97). -/
def all_datasets (datasets : List String) : List String :=
  "bezirksgrenzen" :: datasets.filter (fun ds => ds ≠ "bezirksgrenzen")

/-- `DataService.fetch_datasets_for_request` (lines 74-120): prepend the
boundary kind and run the parallel fetch.  The caller receives exactly the
successful-results list; the skipped-kind list never leaves the log. -/
def fetch_datasets_for_request (env : ConnectorEnv) (bezirk : String)
    (datasets : List String) : Except String (List RawDataset) :=
  (execute_parallel_fetch env bezirk (all_datasets datasets)).map Prod.fst

/-- Outcome of one HTTP attempt inside `_make_request` (connectors/base.py):
a response with a status code, an `httpx.TimeoutException`, or another
`httpx.RequestError` (transport failure). -/
inductive HttpOutcome where
  | status (code : Nat)
  | timeout
  | transportError
  deriving DecidableEq, Repr

/-- The typed connector error taxonomy of connectors/base.py lines 18-39:
`InvalidParameterError`, `RateLimitError`, `ServiceUnavailableError`, and the
plain `ConnectorError` base class (`connectorOther`). -/
inductive ConnErr where
  | invalidParameter
  | rateLimited
  | serviceUnavailable
  | connectorOther
  deriving DecidableEq, Repr

/-- A successful HTTP response, remembering on which attempt it arrived. -/
structure HttpResponse where
  attempt : Nat
  code : Nat
  deriving DecidableEq, Repr

/-- The classification of one attempt in `_make_request` (lines 92-130):
status 400 → `InvalidParameterError`; 429 → `RateLimitError`; ≥ 500 →
`ServiceUnavailableError`; any other ≥ 400 → plain `ConnectorError`;
a timeout is re-raised as `ServiceUnavailableError` (line 122); any other
transport error becomes a plain `ConnectorError` (line 130). -/
def classify_attempt (n : Nat) (o : HttpOutcome) : Except ConnErr HttpResponse :=
  match o with
  | .timeout => .error .serviceUnavailable
  | .transportError => .error .connectorOther
  | .status c =>
    if c = 400 then .error .invalidParameter
    else if c = 429 then .error .rateLimited
    else if 500 ≤ c then .error .serviceUnavailable
    else if 400 ≤ c then .error .connectorOther
    else .ok { attempt := n, code := c }

/-- `stop_after_attempt(3)` (line 67). -/
def STOP_AFTER_ATTEMPTS : Nat := 3

/-- The tenacity retry loop around `_make_request` (lines 65-70):
`retry_if_exception_type((httpx.TimeoutException, ServiceUnavailableError))`
— and a timeout always surfaces as `ServiceUnavailableError` — so an attempt
is retried exactly when it yielded `serviceUnavailable` and attempts remain;
with `reraise=True` the last error is propagated unchanged.
`o n` is the outcome of the n-th attempt (0-based); `rem` counts the
remaining allowed attempts. -/
def retry_loop (o : Nat → HttpOutcome) (n : Nat) : Nat → Except ConnErr HttpResponse
  | 0 => .error .serviceUnavailable
  | rem + 1 =>
    match classify_attempt n (o n) with
    | .ok r => .ok r
    | .error e =>
      if e = ConnErr.serviceUnavailable ∧ 0 < rem then retry_loop o (n + 1) rem
      else .error e

/-- `BaseConnector._make_request` under a given sequence of attempt
outcomes. -/
def make_request (o : Nat → HttpOutcome) : Except ConnErr HttpResponse :=
  retry_loop o 0 STOP_AFTER_ATTEMPTS

/-- `wait_exponential(multiplier=1, min=2, max=10)` (line 68): the wait in
seconds before retrying, after the k-th failed attempt (k ≥ 1):
`clamp(2^k, 2, 10)`.  tenacity's `wait_exponential` is deterministic — it
adds no jitter. -/
def backoff_wait (k : Nat) : ℚ := max 2 (min 10 ((2 : ℚ) ^ k))

lemma standardize_crs_crs (env : GeoEnv) (g : GeoFrame) :
    (standardize_crs env g).crs = some TARGET_CRS := by
  unfold standardize_crs
  by_cases he : g.features.isEmpty
  · simp [he]
  · simp only [he, Bool.false_eq_true, if_false]
    cases hc : g.crs with
    | none => simp
    | some c =>
      by_cases h : c = TARGET_CRS
      · simp [h, hc]
      · simp [h]

lemma clip_to_boundary_crs (env : GeoEnv) (g b : GeoFrame) :
    (clip_to_boundary env g b).crs = g.crs := by
  unfold clip_to_boundary
  split
  · rfl
  · cases env.clipResult g.features b.features <;> simp

lemma validate_geometries_crs {g g' : GeoFrame}
    (h : validate_geometries g = .ok g') : g'.crs = g.crs := by
  unfold validate_geometries at h
  split at h
  · cases h; rfl
  · split at h
    · cases hr : repair_invalid g.features with
      | error e => rw [hr] at h; simp [Bind.bind, Except.bind] at h
      | ok rep =>
        rw [hr] at h
        simp only [Bind.bind, Except.bind] at h
        split at h <;> cases h <;> rfl
    · cases h; rfl

lemma all_valid_of_filter_length_zero {l : List Feature}
    (h : (l.filter (fun f => ! f.geom.is_valid)).length = 0) :
    ∀ f ∈ l, f.geom.is_valid = true := by
  intro f hf
  have h0 : l.filter (fun f => ! f.geom.is_valid) = [] := List.length_eq_zero.mp h
  have := List.filter_eq_nil_iff.mp h0 f hf
  simpa using this

lemma validate_geometries_all_valid {g g' : GeoFrame}
    (h : validate_geometries g = .ok g') :
    ∀ f ∈ g'.features, f.geom.is_valid = true := by
  unfold validate_geometries at h
  split at h
  · cases h
    intro f hf
    rename_i he
    rw [List.isEmpty_iff.mp he] at hf
    cases hf
  · split at h
    · cases hr : repair_invalid g.features with
      | error e => rw [hr] at h; simp [Bind.bind, Except.bind] at h
      | ok rep =>
        rw [hr] at h
        simp only [Bind.bind, Except.bind] at h
        split at h
        · cases h
          intro f hf
          simp only [List.mem_filter] at hf
          exact hf.2
        · cases h
          rename_i hzero
          intro f hf
          have hlen : (rep.filter (fun f => ! f.geom.is_valid)).length = 0 := by omega
          exact all_valid_of_filter_length_zero hlen f hf
    · cases h
      rename_i hcount
      intro f hf
      have hlen : (g.features.filter (fun f => ! f.geom.is_valid)).length = 0 := by omega
      exact all_valid_of_filter_length_zero hlen f hf

/-- C8: geometry validation/repair is idempotent — applied to its own output
it returns that output unchanged: the second pass finds zero invalid
geometries, so zero are repaired and zero dropped. -/
theorem validate_geometries_idempotent {g g' : GeoFrame}
    (h : validate_geometries g = .ok g') :
    validate_geometries g' = .ok g' ∧
      (g'.features.filter (fun f => ! f.geom.is_valid)).length = 0 := by
  have hv := validate_geometries_all_valid h
  have hfil : g'.features.filter (fun f => ! f.geom.is_valid) = [] := by
    apply List.filter_eq_nil_iff.mpr
    intro f hf
    simp [hv f hf]
  constructor
  · unfold validate_geometries
    split
    · rfl
    · simp [hfil]
  · simp [hfil]

/-- Concrete input for the C8 witness: one valid and one repairable
geometry. -/
def mixedFrame : GeoFrame :=
  { crs := some TARGET_CRS
  , features := [⟨Geom.valid, []⟩, ⟨Geom.invalidFixable, []⟩] }

/-- C8 witness: the idempotence theorem applied to a concrete frame that
actually needed a repair on the first pass. -/
theorem validate_geometries_idempotent_witness :
    validate_geometries
        { crs := some TARGET_CRS
        , features := [⟨Geom.valid, []⟩, ⟨Geom.valid, []⟩] } =
      .ok { crs := some TARGET_CRS
          , features := [⟨Geom.valid, []⟩, ⟨Geom.valid, []⟩] } ∧
      (({ crs := some TARGET_CRS
        , features := [⟨Geom.valid, []⟩, ⟨Geom.valid, []⟩] } : GeoFrame).features.filter
          (fun f => ¬ f.geom.is_valid)).length = 0 :=
  @validate_geometries_idempotent mixedFrame
    { crs := some TARGET_CRS
    , features := [⟨Geom.valid, []⟩, ⟨Geom.valid, []⟩] } rfl

lemma standardize_crs_of_target (env : GeoEnv) (h : GeoFrame)
    (hc : h.crs = some TARGET_CRS) : standardize_crs env h = h := by
  unfold standardize_crs
  by_cases he : h.features.isEmpty
  · cases h with
    | mk c fs =>
      simp only [List.isEmpty_iff] at he
      subst he
      simp at hc
      simp [hc]
  · rw [if_neg (by simp [he]), hc]
    simp

/-- C9: CRS standardization is idempotent — the second application finds the
CRS already equal to `EPSG:25833` and returns the frame unchanged, so every
coordinate is literally identical. -/
theorem standardize_crs_idempotent (env : GeoEnv) (g : GeoFrame) :
    standardize_crs env (standardize_crs env g) = standardize_crs env g :=
  standardize_crs_of_target env _ (standardize_crs_crs env g)

lemma number_features_mem {dtype s t : String} :
    ∀ (i : Nat) (l : List Feature), ∀ f' ∈ number_features dtype s t i l,
      f'.dataset_type = some dtype ∧ f'.source_system = some s ∧ f'.bezirk = some t ∧
        f'.feature_id.isSome = true ∧ ∃ f ∈ l, f'.geom = f.geom := by
  intro i l
  induction l generalizing i with
  | nil => intro f' h; cases h
  | cons a as ih =>
    intro f' h
    rw [number_features] at h
    rcases List.mem_cons.mp h with h1 | h2
    · subst h1
      exact ⟨rfl, rfl, rfl, rfl, a, List.mem_cons_self a as, rfl⟩
    · obtain ⟨h1, h2', h3, h4, f, hf, hg⟩ := ih (i + 1) f' h2
      exact ⟨h1, h2', h3, h4, f, List.mem_cons_of_mem a hf, hg⟩

lemma process_single_dataset_ok {env : GeoEnv} {ds : RawDataset} {boundary : GeoFrame}
    {t : String} {hf : HarmFrame}
    (h : process_single_dataset env ds boundary t = .ok hf) :
    hf.crs = some TARGET_CRS ∧
      ∀ f ∈ hf.features, f.geom.is_valid = true ∧ f.dataset_type = some ds.dataset_type := by
  unfold process_single_dataset at h
  cases hg : ds.geodata with
  | none => rw [hg] at h; simp [Bind.bind, Except.bind] at h
  | some g =>
    rw [hg] at h
    simp only [Bind.bind, Except.bind] at h
    split at h
    · cases h
      exact ⟨rfl, by intro f hf'; cases hf'⟩
    · cases hv : validate_geometries
          (if ds.dataset_type ≠ "bezirksgrenzen" then
            clip_to_boundary env (standardize_crs env g) boundary
          else standardize_crs env g) with
      | error e => rw [hv] at h; cases h
      | ok g3 =>
        rw [hv] at h
        cases h
        have hcrs3 : g3.crs = some TARGET_CRS := by
          rw [validate_geometries_crs hv]
          split
          · rw [clip_to_boundary_crs]
            exact standardize_crs_crs env g
          · exact standardize_crs_crs env g
        have hval := validate_geometries_all_valid hv
        unfold standardize_schema
        split
        · exact ⟨rfl, by intro f hf'; cases hf'⟩
        · refine ⟨hcrs3, ?_⟩
          intro f hf'
          obtain ⟨hdt, _, _, _, f0, hf0, hg0⟩ := number_features_mem 0 g3.features f hf'
          exact ⟨by rw [hg0]; exact hval f0 hf0, hdt⟩

lemma harmonize_loop_frames (env : GeoEnv) (b : GeoFrame) (t : String) :
    ∀ ds : List RawDataset,
      (harmonize_loop env b t ds).1 =
        ds.filterMap (fun d => (process_single_dataset env d b t).toOption) := by
  intro ds
  induction ds with
  | nil => rfl
  | cons d rest ih =>
    rw [harmonize_loop]
    cases hp : process_single_dataset env d b t with
    | ok hf => simp [hp, ih, Except.toOption]
    | error e => simp [hp, ih, Except.toOption]

lemma harmonize_loop_stats (env : GeoEnv) (b : GeoFrame) (t : String) :
    ∀ ds : List RawDataset,
      (harmonize_loop env b t ds).2.datasets_processed
        + (harmonize_loop env b t ds).2.datasets_failed = ds.length := by
  intro ds
  induction ds with
  | nil => rfl
  | cons d rest ih =>
    rw [harmonize_loop]
    cases hp : process_single_dataset env d b t with
    | ok hf => simp only [hp, List.length_cons]; omega
    | error e => simp only [hp, List.length_cons]; omega

/-- The condition under which `_extract_district_boundary` succeeds: a first
dataset of kind `"bezirksgrenzen"` exists, its payload is a frame, and the
frame is non-empty (processing_service.py lines 161-172). -/
def district_boundary_available (ds : List RawDataset) : Bool :=
  match ds.find? (fun d => d.dataset_type = "bezirksgrenzen") with
  | none => false
  | some d =>
    match d.geodata with
    | none => false
    | some g => ! g.features.isEmpty

lemma extract_district_boundary_isOk (env : GeoEnv) (ds : List RawDataset) (t : String) :
    (extract_district_boundary env ds t).isOk = district_boundary_available ds := by
  unfold extract_district_boundary district_boundary_available
  cases hfind : ds.find? (fun d => d.dataset_type = "bezirksgrenzen") with
  | none => simp [Bind.bind, Except.bind, Except.isOk, Except.toBool]
  | some d =>
    cases hg : d.geodata with
    | none => simp [hg, Bind.bind, Except.bind, Except.isOk, Except.toBool]
    | some g =>
      by_cases he : g.features.isEmpty
      · simp [hg, Bind.bind, Except.bind, Except.isOk, Except.toBool,
          List.isEmpty_iff.mp he]
      · have he' : g.features ≠ [] := by
          intro h0
          exact he (List.isEmpty_iff.mpr h0)
        simp [hg, Bind.bind, Except.bind, Except.isOk, Except.toBool, he']

/-- C4: every feature of the harmonized collection returned by
`harmonize_datasets` has a valid geometry, and the collection is expressed
in the fixed target CRS EPSG:25833 (each dataset was reprojected or assigned
the target CRS, invalid geometries were repaired with `buffer(0)`, and
geometries still invalid after repair were dropped). -/
theorem harmonized_features_valid_in_target_crs
    {env : GeoEnv} {ds : List RawDataset} {t : String} {r : HarmonizeResult}
    (h : harmonize_datasets env ds t = .ok r) :
    r.harmonized_data.crs = some TARGET_CRS ∧
      ∀ f ∈ r.harmonized_data.features, f.geom.is_valid = true := by
  unfold harmonize_datasets at h
  split at h
  · cases h
  · cases hb : extract_district_boundary env ds t with
    | error e => rw [hb] at h; cases h
    | ok boundary =>
      rw [hb] at h
      cases h
      constructor
      · unfold mk_harmonize_result combine_frames
        split <;> rfl
      · intro f hf
        unfold mk_harmonize_result combine_frames at hf
        split at hf
        · cases hf
        · simp only at hf
          rw [harmonize_loop_frames] at hf
          obtain ⟨l, hl, hfl⟩ := List.mem_flatten.mp hf
          obtain ⟨frame, hframe, rfl⟩ := List.mem_map.mp hl
          obtain ⟨d, _, hpd⟩ := List.mem_filterMap.mp hframe
          cases hp : process_single_dataset env d boundary t with
          | error e => rw [hp] at hpd; cases hpd
          | ok hf' =>
            rw [hp] at hpd
            cases hpd
            exact ((process_single_dataset_ok hp).2 f hfl).1

/-- Trivial geometric environment for concrete runs: reprojection leaves the
abstract geometries untouched and clipping keeps every feature. -/
def idEnv : GeoEnv :=
  { reproject := fun _ f => f, clipResult := fun g _ => some g }

/-- A well-formed one-feature district boundary frame, already in the target
CRS. -/
def sampleBoundaryFrame : GeoFrame :=
  { crs := some TARGET_CRS
  , features := [⟨Geom.valid, [("Gemeinde_name", "Pankow")]⟩] }

/-- The packaged boundary dataset built from `sampleBoundaryFrame`. -/
def goodBoundaryDataset : RawDataset :=
  { dataset_type := "bezirksgrenzen"
  , source := "geoportal"
  , geodata := some sampleBoundaryFrame }

/-- A three-building frame, already in the target CRS. -/
def sampleBuildingsFrame : GeoFrame :=
  { crs := some TARGET_CRS
  , features := [⟨Geom.valid, []⟩, ⟨Geom.valid, []⟩, ⟨Geom.valid, []⟩] }

/-- A buildings dataset whose payload is not a frame (the `geodata: None`
failure mode exercised in test_processing_service.py line 209). -/
def nullBuildingsDataset : RawDataset :=
  { dataset_type := "gebaeude"
  , source := "geoportal"
  , geodata := none }

/-- C4 witness: the validity/CRS invariant instantiated on a concrete run
(a good boundary plus a buildings dataset that fails to process). -/
theorem harmonized_features_valid_in_target_crs_witness :
    (mk_harmonize_result idEnv sampleBoundaryFrame "Pankow"
        [goodBoundaryDataset, nullBuildingsDataset]).harmonized_data.crs = some TARGET_CRS ∧
      ∀ f ∈ (mk_harmonize_result idEnv sampleBoundaryFrame "Pankow"
          [goodBoundaryDataset, nullBuildingsDataset]).harmonized_data.features,
        f.geom.is_valid = true :=
  @harmonized_features_valid_in_target_crs idEnv [goodBoundaryDataset, nullBuildingsDataset]
    "Pankow" (mk_harmonize_result idEnv sampleBoundaryFrame "Pankow"
      [goodBoundaryDataset, nullBuildingsDataset]) rfl

/-- A district boundary dataset that passes boundary extraction (non-empty,
target CRS) but whose own pipeline run raises: its single geometry is
invalid and `buffer(0)` raises on it (e.g. a GeometryCollection). -/
def raisingBoundaryDataset : RawDataset :=
  { dataset_type := "bezirksgrenzen"
  , source := "geoportal"
  , geodata := some { crs := some TARGET_CRS, features := [⟨Geom.invalidRaises, []⟩] } }

/-- C3 counterexample: a run in which the district boundary is available
(extraction succeeds) and every input dataset fails to process.  The claim
says `harmonize_datasets` fails outright in this case; the code returns a
success with an empty harmonized collection and all datasets counted as
failed (the `if harmonized_datasets:` fallback of lines 100-106). -/
theorem all_datasets_failing_still_returns :
    district_boundary_available [raisingBoundaryDataset] = true ∧
      (harmonize_datasets idEnv [raisingBoundaryDataset] "Pankow").isOk = true ∧
      (harmonize_datasets idEnv [raisingBoundaryDataset] "Pankow").toOption.map
          (fun r => (r.harmonized_data.features,
                     r.processing_stats.datasets_processed,
                     r.processing_stats.datasets_failed)) = some ([], 0, 1) :=
  ⟨rfl, rfl, rfl⟩

/-- C3 amended: `harmonize_datasets` raises exactly when the district
boundary is unavailable (empty input list, no boundary entry, null or empty
boundary payload); in every other run — including one where every dataset
fails to process — it returns a result in which each failing dataset is
counted and excluded and the remaining datasets are harmonized in order. -/
lemma harmonize_isOk_eq (env : GeoEnv) (ds : List RawDataset) (t : String) :
    (harmonize_datasets env ds t).isOk = district_boundary_available ds := by
  unfold harmonize_datasets
  by_cases hemp : ds.isEmpty
  · rw [if_pos hemp]
    rw [List.isEmpty_iff.mp hemp]
    rfl
  · rw [if_neg hemp, ← extract_district_boundary_isOk env ds t]
    cases hb : extract_district_boundary env ds t <;> rfl

lemma harmonize_ok_features {env : GeoEnv} {ds : List RawDataset} {t : String}
    {boundary : GeoFrame} {r : HarmonizeResult}
    (hb : extract_district_boundary env ds t = .ok boundary)
    (hr : harmonize_datasets env ds t = .ok r) :
    r.harmonized_data.features =
      ((ds.filterMap (fun d => (process_single_dataset env d boundary t).toOption)).map
        HarmFrame.features).flatten := by
  unfold harmonize_datasets at hr
  split at hr
  · cases hr
  · rw [hb] at hr
    cases hr
    unfold mk_harmonize_result combine_frames
    split
    · rename_i hnil
      rw [harmonize_loop_frames] at hnil
      rw [List.isEmpty_iff.mp hnil]
      rfl
    · simp only
      rw [harmonize_loop_frames]

lemma harmonize_ok_stats {env : GeoEnv} {ds : List RawDataset} {t : String}
    {boundary : GeoFrame} {r : HarmonizeResult}
    (hb : extract_district_boundary env ds t = .ok boundary)
    (hr : harmonize_datasets env ds t = .ok r) :
    r.processing_stats.datasets_processed + r.processing_stats.datasets_failed
      = ds.length := by
  unfold harmonize_datasets at hr
  split at hr
  · cases hr
  · rw [hb] at hr
    cases hr
    unfold mk_harmonize_result
    exact harmonize_loop_stats env boundary t ds

/-- C3 amended: `harmonize_datasets` raises exactly when the district
boundary is unavailable (empty input list, no boundary entry, null or empty
boundary payload); in every other run — including one where every dataset
fails to process — it returns a result in which each failing dataset is
counted and excluded and the remaining datasets are harmonized in order. -/
theorem harmonize_raises_iff_boundary_unavailable (env : GeoEnv)
    (ds : List RawDataset) (t : String) :
    ((harmonize_datasets env ds t).isOk = district_boundary_available ds) ∧
      (∀ boundary r, extract_district_boundary env ds t = .ok boundary →
        harmonize_datasets env ds t = .ok r →
        r.harmonized_data.features =
          ((ds.filterMap (fun d => (process_single_dataset env d boundary t).toOption)).map
            HarmFrame.features).flatten ∧
        r.processing_stats.datasets_processed + r.processing_stats.datasets_failed
          = ds.length) :=
  ⟨harmonize_isOk_eq env ds t,
   fun _ _ hb hr => ⟨harmonize_ok_features hb hr, harmonize_ok_stats hb hr⟩⟩

/-- C3 amended witness: the characterization applied to a concrete run with
one good boundary dataset and one failing buildings dataset. -/
theorem harmonize_raises_iff_boundary_unavailable_witness :
    (mk_harmonize_result idEnv sampleBoundaryFrame "Pankow"
        [goodBoundaryDataset, nullBuildingsDataset]).harmonized_data.features =
      ((([goodBoundaryDataset, nullBuildingsDataset].filterMap
          (fun d => (process_single_dataset idEnv d sampleBoundaryFrame "Pankow").toOption)).map
        HarmFrame.features).flatten) ∧
    (mk_harmonize_result idEnv sampleBoundaryFrame "Pankow"
        [goodBoundaryDataset, nullBuildingsDataset]).processing_stats.datasets_processed
      + (mk_harmonize_result idEnv sampleBoundaryFrame "Pankow"
          [goodBoundaryDataset, nullBuildingsDataset]).processing_stats.datasets_failed
      = [goodBoundaryDataset, nullBuildingsDataset].length :=
  (harmonize_raises_iff_boundary_unavailable idEnv
    [goodBoundaryDataset, nullBuildingsDataset] "Pankow").2 sampleBoundaryFrame _ rfl rfl

/-- A fully valid, fully attribute-complete harmonized feature. -/
def goodFeat : HarmFeature :=
  { feature_id := some "gebaeude_0"
  , dataset_type := some "gebaeude"
  , source_system := some "geoportal"
  , bezirk := some "Pankow"
  , geom := Geom.valid
  , original_attributes := [] }

/-- C5 counterexample: on a collection of three fully valid, fully complete
features the reported `quality_score` is `round(0.8006, 3) = 0.801`, while
the claimed unrounded formula gives `0.8006` — the code's final `round(·, 3)`
(line 429) makes the two differ. -/
theorem quality_score_rounding_deviates :
    (calculate_quality_stats [goodFeat, goodFeat, goodFeat]).quality_score
        = (801 : ℚ) / 1000 ∧
      (0.4 : ℚ) * geometry_validity_ratio [goodFeat, goodFeat, goodFeat]
          + 0.4 * attribute_completeness_ratio [goodFeat, goodFeat, goodFeat]
          + 0.2 * (coverage_percentage [goodFeat, goodFeat, goodFeat] / 100)
        = (4003 : ℚ) / 5000 ∧
      ((801 : ℚ) / 1000 ≠ (4003 : ℚ) / 5000) := by
  refine ⟨?_, ?_, by norm_num⟩
  · norm_num [calculate_quality_stats, quality_formula, roundTo,
      geometry_validity_ratio, attribute_completeness_ratio, field_completeness,
      coverage_percentage, goodFeat, Geom.is_valid, round_eq]
  · norm_num [geometry_validity_ratio, attribute_completeness_ratio,
      field_completeness, coverage_percentage, goodFeat, Geom.is_valid]

lemma ratio_bounds_of_filter {α : Type} (p : α → Bool) {l : List α} (h : l ≠ []) :
    0 ≤ ((l.filter p).length : ℚ) / (l.length : ℚ) ∧
      ((l.filter p).length : ℚ) / (l.length : ℚ) ≤ 1 := by
  have hlen : 0 < (l.length : ℚ) := by
    have := List.length_pos.mpr h
    exact_mod_cast this
  constructor
  · exact div_nonneg (by positivity) (le_of_lt hlen)
  · rw [div_le_one hlen]
    exact_mod_cast List.length_filter_le p l

lemma geometry_validity_ratio_bounds {fs : List HarmFeature} (h : fs ≠ []) :
    0 ≤ geometry_validity_ratio fs ∧ geometry_validity_ratio fs ≤ 1 := by
  unfold geometry_validity_ratio
  exact ratio_bounds_of_filter _ h

lemma field_completeness_bounds (g : HarmFeature → Option String)
    {fs : List HarmFeature} (h : fs ≠ []) :
    0 ≤ field_completeness g fs ∧ field_completeness g fs ≤ 1 := by
  unfold field_completeness
  exact ratio_bounds_of_filter _ h

lemma attribute_completeness_ratio_bounds {fs : List HarmFeature} (h : fs ≠ []) :
    0 ≤ attribute_completeness_ratio fs ∧ attribute_completeness_ratio fs ≤ 1 := by
  obtain ⟨a0, a1⟩ := field_completeness_bounds HarmFeature.feature_id h
  obtain ⟨b0, b1⟩ := field_completeness_bounds HarmFeature.dataset_type h
  obtain ⟨c0, c1⟩ := field_completeness_bounds HarmFeature.source_system h
  obtain ⟨d0, d1⟩ := field_completeness_bounds HarmFeature.bezirk h
  unfold attribute_completeness_ratio
  constructor <;> nlinarith

lemma coverage_percentage_bounds (fs : List HarmFeature) :
    0 ≤ coverage_percentage fs ∧ coverage_percentage fs ≤ 100 := by
  unfold coverage_percentage
  constructor
  · apply le_min (by norm_num)
    positivity
  · exact min_le_left _ _

lemma quality_formula_bounds {fs : List HarmFeature} (h : fs ≠ []) :
    0 ≤ quality_formula fs ∧ quality_formula fs ≤ 1 := by
  obtain ⟨v0, v1⟩ := geometry_validity_ratio_bounds h
  obtain ⟨c0, c1⟩ := attribute_completeness_ratio_bounds h
  obtain ⟨k0, k1⟩ := coverage_percentage_bounds fs
  unfold quality_formula
  constructor <;> nlinarith

lemma roundTo_three_bounds {q : ℚ} (h0 : 0 ≤ q) (h1 : q ≤ 1) :
    0 ≤ roundTo 3 q ∧ roundTo 3 q ≤ 1 := by
  unfold roundTo
  constructor
  · apply div_nonneg _ (by norm_num)
    have hz : (0 : ℤ) ≤ round (q * (10 : ℚ) ^ 3) := by
      rw [round_eq]
      apply Int.le_floor.mpr
      push_cast
      nlinarith
    exact_mod_cast hz
  · rw [div_le_one (by norm_num)]
    have hz : round (q * (10 : ℚ) ^ 3) ≤ 1000 := by
      rw [round_eq]
      have hle : (⌊q * (10 : ℚ) ^ 3 + 1 / 2⌋ : ℤ) ≤ ⌊(1000 : ℚ) + 1 / 2⌋ :=
        Int.floor_le_floor (by nlinarith)
      have hfl : (⌊(1000 : ℚ) + 1 / 2⌋ : ℤ) = 1000 := by norm_num
      omega
    calc ((round (q * (10 : ℚ) ^ 3) : ℤ) : ℚ) ≤ ((1000 : ℤ) : ℚ) := by exact_mod_cast hz
    _ = (10 : ℚ) ^ 3 := by norm_num

/-- C5 amended: the composite quality score is the weighted sum
`0.4 * validity + 0.4 * completeness + 0.2 * coverage/100` **rounded to three
decimals** (completeness measured over feature_id, dataset_type,
source_system, bezirk); it always lies in `[0, 1]`; an empty collection
scores exactly 0; a fully valid, fully complete collection of at least 1000
features (full coverage) scores exactly 1. -/
theorem quality_score_rounded_formula_and_bounds (fs : List HarmFeature) :
    (fs ≠ [] →
        (calculate_quality_stats fs).quality_score = roundTo 3 (quality_formula fs)) ∧
      (0 ≤ (calculate_quality_stats fs).quality_score ∧
        (calculate_quality_stats fs).quality_score ≤ 1) ∧
      (fs = [] → (calculate_quality_stats fs).quality_score = 0) ∧
      ((∀ f ∈ fs, f.geom.is_valid = true ∧ f.feature_id.isSome = true ∧
          f.dataset_type.isSome = true ∧ f.source_system.isSome = true ∧
          f.bezirk.isSome = true) →
        1000 ≤ fs.length →
        (calculate_quality_stats fs).quality_score = 1) := by
  refine ⟨?_, ?_, ?_, ?_⟩
  · intro hne
    unfold calculate_quality_stats
    rw [if_neg (by simpa [List.isEmpty_iff] using hne)]
  · by_cases hne : fs = []
    · subst hne
      constructor <;> norm_num [calculate_quality_stats]
    · have hb := quality_formula_bounds hne
      have := roundTo_three_bounds hb.1 hb.2
      unfold calculate_quality_stats
      rw [if_neg (by simpa [List.isEmpty_iff] using hne)]
      exact this
  · intro he
    subst he
    rfl
  · intro hall hlen
    have hne : fs ≠ [] := by
      intro h0
      rw [h0] at hlen
      simp at hlen
    have hlenq : (1000 : ℚ) ≤ (fs.length : ℚ) := by exact_mod_cast hlen
    have hlpos : (0 : ℚ) < (fs.length : ℚ) := by
      have := List.length_pos.mpr hne
      exact_mod_cast this
    have hv : geometry_validity_ratio fs = 1 := by
      unfold geometry_validity_ratio
      rw [List.filter_eq_self.mpr (fun f hf => (hall f hf).1)]
      exact div_self (ne_of_gt hlpos)
    have hfid : field_completeness HarmFeature.feature_id fs = 1 := by
      unfold field_completeness
      rw [List.filter_eq_self.mpr (fun f hf => (hall f hf).2.1)]
      exact div_self (ne_of_gt hlpos)
    have hfdt : field_completeness HarmFeature.dataset_type fs = 1 := by
      unfold field_completeness
      rw [List.filter_eq_self.mpr (fun f hf => (hall f hf).2.2.1)]
      exact div_self (ne_of_gt hlpos)
    have hfss : field_completeness HarmFeature.source_system fs = 1 := by
      unfold field_completeness
      rw [List.filter_eq_self.mpr (fun f hf => (hall f hf).2.2.2.1)]
      exact div_self (ne_of_gt hlpos)
    have hfbz : field_completeness HarmFeature.bezirk fs = 1 := by
      unfold field_completeness
      rw [List.filter_eq_self.mpr (fun f hf => (hall f hf).2.2.2.2)]
      exact div_self (ne_of_gt hlpos)
    have hc : attribute_completeness_ratio fs = 1 := by
      unfold attribute_completeness_ratio
      rw [hfid, hfdt, hfss, hfbz]
      norm_num
    have hcov : coverage_percentage fs = 100 := by
      unfold coverage_percentage
      apply min_eq_left
      rw [div_mul_eq_mul_div, le_div_iff₀ (by norm_num)]
      nlinarith
    have hform : quality_formula fs = 1 := by
      unfold quality_formula
      rw [hv, hc, hcov]
      norm_num
    unfold calculate_quality_stats
    rw [if_neg (by simpa [List.isEmpty_iff] using hne), hform]
    unfold roundTo
    norm_num [round_eq]

/-- C5 amended witness: the rounded-formula equation and the perfect score
instantiated on a concrete 1000-feature collection. -/
theorem quality_score_rounded_formula_and_bounds_witness :
    (calculate_quality_stats (List.replicate 1000 goodFeat)).quality_score
        = roundTo 3 (quality_formula (List.replicate 1000 goodFeat)) ∧
      (calculate_quality_stats (List.replicate 1000 goodFeat)).quality_score = 1 :=
  ⟨(quality_score_rounded_formula_and_bounds (List.replicate 1000 goodFeat)).1
      (List.length_pos.mp (by rw [List.length_replicate]; norm_num))
  , (quality_score_rounded_formula_and_bounds (List.replicate 1000 goodFeat)).2.2.2
      (by
        intro f hf
        rw [List.eq_of_mem_replicate hf]
        exact ⟨rfl, rfl, rfl, rfl, rfl⟩)
      (by rw [List.length_replicate])⟩

/-- C6 counterexample: a plain 404 response.  The claim says every 4xx other
than 429 yields `InvalidParameter`; the code's `elif` ladder (base.py lines
98-113) maps only status 400 to `InvalidParameterError` and any other
non-429 4xx to the plain `ConnectorError`. -/
theorem http_404_yields_generic_error :
    make_request (fun _ => HttpOutcome.status 404) = .error ConnErr.connectorOther ∧
      ConnErr.connectorOther ≠ ConnErr.invalidParameter :=
  ⟨rfl, by decide⟩

/-- The outcomes tenacity retries on: a timeout or a 5xx response (both of
which surface as `ServiceUnavailableError`). -/
def retryable_outcome : HttpOutcome → Bool
  | .timeout => true
  | .status c => 500 ≤ c
  | .transportError => false

lemma classify_retryable {x : HttpOutcome} (h : retryable_outcome x = true) (n : Nat) :
    classify_attempt n x = .error ConnErr.serviceUnavailable := by
  cases x with
  | timeout => rfl
  | transportError => simp [retryable_outcome] at h
  | status c =>
    simp only [retryable_outcome, decide_eq_true_eq] at h
    unfold classify_attempt
    dsimp only
    rw [if_neg (by omega), if_neg (by omega), if_pos h]

/-- C6 amended: retries happen only on timeout or 5xx (both surfacing as
`ServiceUnavailable`), capped at 3 attempts with a deterministic exponential
backoff clamped to [2s, 10s] (tenacity `wait_exponential` — no jitter);
status 400 yields `InvalidParameter` immediately; 429 yields `RateLimited`
immediately; any other 4xx yields the plain connector error immediately; a
non-timeout transport failure yields the plain connector error; timeout or
5xx on all three attempts yields `ServiceUnavailable`. -/
theorem request_retry_and_error_classification :
    (∀ o : Nat → HttpOutcome, o 0 = .status 400 →
        make_request o = .error ConnErr.invalidParameter) ∧
      (∀ o : Nat → HttpOutcome, o 0 = .status 429 →
        make_request o = .error ConnErr.rateLimited) ∧
      (∀ (o : Nat → HttpOutcome) (c : Nat), o 0 = .status c →
        400 < c → c < 500 → c ≠ 429 →
        make_request o = .error ConnErr.connectorOther) ∧
      (∀ o : Nat → HttpOutcome, o 0 = .transportError →
        make_request o = .error ConnErr.connectorOther) ∧
      (∀ o : Nat → HttpOutcome,
        (∀ i, i < STOP_AFTER_ATTEMPTS → retryable_outcome (o i) = true) →
        make_request o = .error ConnErr.serviceUnavailable) ∧
      (∀ (o : Nat → HttpOutcome) (c : Nat), retryable_outcome (o 0) = true →
        o 1 = .status c → c < 400 →
        make_request o = .ok { attempt := 1, code := c }) ∧
      (backoff_wait 1 = 2 ∧ backoff_wait 2 = 4) ∧
      (∀ k : Nat, 2 ≤ backoff_wait k ∧ backoff_wait k ≤ 10) := by
  refine ⟨?_, ?_, ?_, ?_, ?_, ?_, ⟨?_, ?_⟩, ?_⟩
  · intro o h
    simp [make_request, STOP_AFTER_ATTEMPTS, retry_loop, classify_attempt, h]
  · intro o h
    simp [make_request, STOP_AFTER_ATTEMPTS, retry_loop, classify_attempt, h]
  · intro o c h h1 h2 h3
    have hcls : classify_attempt 0 (o 0) = .error ConnErr.connectorOther := by
      rw [h]
      unfold classify_attempt
      dsimp only
      rw [if_neg (by omega), if_neg (by omega), if_neg (by omega), if_pos (by omega)]
    simp [make_request, STOP_AFTER_ATTEMPTS, retry_loop, hcls]
  · intro o h
    simp [make_request, STOP_AFTER_ATTEMPTS, retry_loop, classify_attempt, h]
  · intro o h
    have h0 := classify_retryable (h 0 (by norm_num [STOP_AFTER_ATTEMPTS])) 0
    have h1 := classify_retryable (h 1 (by norm_num [STOP_AFTER_ATTEMPTS])) 1
    have h2 := classify_retryable (h 2 (by norm_num [STOP_AFTER_ATTEMPTS])) 2
    simp [make_request, STOP_AFTER_ATTEMPTS, retry_loop, h0, h1, h2]
  · intro o c h0 h1 hc
    have hcls0 := classify_retryable h0 0
    have hcls1 : classify_attempt 1 (o 1) = .ok { attempt := 1, code := c } := by
      rw [h1]
      unfold classify_attempt
      dsimp only
      rw [if_neg (by omega), if_neg (by omega), if_neg (by omega), if_neg (by omega)]
    simp [make_request, STOP_AFTER_ATTEMPTS, retry_loop, hcls0, hcls1]
  · norm_num [backoff_wait]
  · norm_num [backoff_wait]
  · intro k
    refine ⟨le_max_left _ _, max_le (by norm_num) (min_le_left _ _)⟩

/-- C6 amended witness: the classification applied to three concrete outcome
sequences — an immediate 400, three straight timeouts, and a 503 followed by
a 200 which succeeds on the second attempt. -/
theorem request_retry_and_error_classification_witness :
    make_request (fun _ => HttpOutcome.status 400) = .error ConnErr.invalidParameter ∧
      make_request (fun _ => HttpOutcome.timeout) = .error ConnErr.serviceUnavailable ∧
      make_request (fun n => if n = 0 then HttpOutcome.status 503 else HttpOutcome.status 200)
        = .ok { attempt := 1, code := 200 } :=
  ⟨request_retry_and_error_classification.1 (fun _ => HttpOutcome.status 400) rfl
  , request_retry_and_error_classification.2.2.2.2.1 (fun _ => HttpOutcome.timeout)
      (fun _ _ => rfl)
  , request_retry_and_error_classification.2.2.2.2.2.1
      (fun n => if n = 0 then HttpOutcome.status 503 else HttpOutcome.status 200)
      200 rfl rfl (by norm_num)⟩

/-- The dataset dictionary `_fetch_single_dataset` packages for a successful
boundary fetch (data_service.py lines 260-267). -/
def boundary_raw (bezirk : String) (b : GeoFrame) : RawDataset :=
  { dataset_type := "bezirksgrenzen"
  , source := "geoportal"
  , geodata := some b }

lemma fetch_single_dataset_type {env : ConnectorEnv} {bezirk d : String} {r : RawDataset}
    (h : fetch_single_dataset env bezirk d = .ok r) : r.dataset_type = d := by
  unfold fetch_single_dataset at h
  split at h
  · cases h
  · split at h
    · cases h
    · cases h
      rfl

lemma fetch_single_boundary_ok {env : ConnectorEnv} {b : GeoFrame}
    (bezirk : String) (hb : env.boundaryFetch = .ok b) :
    fetch_single_dataset env bezirk "bezirksgrenzen" = .ok (boundary_raw bezirk b) := by
  unfold fetch_single_dataset connector_dispatch boundary_raw
  rw [hb]
  rfl

lemma fetch_single_boundary_error {env : ConnectorEnv} {e : String}
    (bezirk : String) (hb : env.boundaryFetch = .error e) :
    fetch_single_dataset env bezirk "bezirksgrenzen" =
      .error ("Failed to fetch bezirksgrenzen for " ++ bezirk ++ ": " ++ e) := by
  unfold fetch_single_dataset connector_dispatch
  rw [hb]
  rfl

lemma collect_results_ok (bezirk : String) :
    ∀ l : List (String × Except String RawDataset),
      (∀ p ∈ l, p.1 = "bezirksgrenzen" → p.2.isOk = true) →
      collect_results bezirk l =
        .ok (l.filterMap (fun p => p.2.toOption),
             l.filterMap (fun p =>
               match p.2 with
               | .error _ => some p.1
               | .ok _ => none)) := by
  intro l
  induction l with
  | nil => intro _; rfl
  | cons p rest ih =>
    intro hall
    have hrest := ih (fun q hq => hall q (List.mem_cons_of_mem p hq))
    obtain ⟨d, r⟩ := p
    cases r with
    | error e =>
      have hd : ¬ d = "bezirksgrenzen" := by
        intro h0
        have := hall (d, .error e) (List.mem_cons_self _ _) h0
        simp [Except.isOk, Except.toBool] at this
      rw [collect_results, if_neg hd]
      simp only [hrest, Bind.bind, Except.bind, List.filterMap_cons, Except.toOption]
    | ok res =>
      rw [collect_results]
      simp only [hrest, Bind.bind, Except.bind, List.filterMap_cons, Except.toOption]

lemma fetch_tasks_eq (kinds : List String) :
    (all_datasets kinds).filter (fun d => d ∈ DATASET_CONNECTOR_MAPPING) =
      "bezirksgrenzen" ::
        ((kinds.filter (fun ds => ds ≠ "bezirksgrenzen")).filter
          (fun d => d ∈ DATASET_CONNECTOR_MAPPING)) := by
  unfold all_datasets
  rw [List.filter_cons_of_pos (by decide)]

lemma execute_parallel_fetch_ok {env : ConnectorEnv} {b : GeoFrame}
    (bezirk : String) (kinds : List String) (hb : env.boundaryFetch = .ok b) :
    execute_parallel_fetch env bezirk (all_datasets kinds) =
      .ok (boundary_raw bezirk b ::
            ((kinds.filter (fun ds => ds ≠ "bezirksgrenzen")).filter
              (fun d => d ∈ DATASET_CONNECTOR_MAPPING)).filterMap
              (fun d => (fetch_single_dataset env bezirk d).toOption),
           ((kinds.filter (fun ds => ds ≠ "bezirksgrenzen")).filter
              (fun d => d ∈ DATASET_CONNECTOR_MAPPING)).filterMap
              (fun d => match fetch_single_dataset env bezirk d with
                | .error _ => some d
                | .ok _ => none)) := by
  unfold execute_parallel_fetch
  rw [fetch_tasks_eq, List.map_cons]
  rw [collect_results_ok bezirk _ ?hcond]
  case hcond =>
    intro p hp hpbez
    rcases List.mem_cons.mp hp with h0 | h0
    · rw [h0]
      rw [h0] at hpbez
      simp only at hpbez
      simp only [hpbez, fetch_single_boundary_ok bezirk hb]
      rfl
    · obtain ⟨d, _, rfl⟩ := List.mem_map.mp h0
      simp only at hpbez
      rw [hpbez, fetch_single_boundary_ok bezirk hb]
      rfl
  rw [List.filterMap_cons, List.filterMap_cons]
  simp only [fetch_single_boundary_ok bezirk hb, Except.toOption,
    List.filterMap_map]
  rfl

/-- C1: if the boundary connector raises any error, the whole request raises
a `ConnectorError` wrapping it — no dataset results are returned, whatever
the sibling tasks produced (the sibling outcomes `buildingsFetch`/`osmFetch`
are unconstrained here). -/
theorem boundary_failure_aborts_run (env : ConnectorEnv) (bezirk : String)
    (kinds : List String) (e : String) (hb : env.boundaryFetch = .error e) :
    fetch_datasets_for_request env bezirk kinds =
      .error ("Failed to fetch district boundary for " ++ bezirk ++ ": " ++
        ("Failed to fetch bezirksgrenzen for " ++ bezirk ++ ": " ++ e)) := by
  unfold fetch_datasets_for_request execute_parallel_fetch
  rw [fetch_tasks_eq]
  simp only [List.map_cons]
  rw [fetch_single_boundary_error bezirk hb]
  simp only [collect_results]
  rfl

/-- Connector outcomes in which the boundary task fails while both sibling
connectors would succeed. -/
def failingBoundaryEnv : ConnectorEnv :=
  { boundaryFetch := .error "boom"
  , buildingsFetch := fun _ => .ok sampleBuildingsFrame
  , osmFetch := fun _ => .ok sampleBuildingsFrame }

/-- C1 witness: the abort theorem applied to a concrete run whose sibling
fetches succeed. -/
theorem boundary_failure_aborts_run_witness :
    fetch_datasets_for_request failingBoundaryEnv "Pankow" ["gebaeude"] =
      .error ("Failed to fetch district boundary for " ++ "Pankow" ++ ": " ++
        ("Failed to fetch bezirksgrenzen for " ++ "Pankow" ++ ": " ++ "boom")) :=
  boundary_failure_aborts_run failingBoundaryEnv "Pankow" ["gebaeude"] "boom" rfl

/-- Connector outcomes for a run in which the boundary and buildings fetches
succeed and the transit-stop fetch raises. -/
def sampleEnv : ConnectorEnv :=
  { boundaryFetch := .ok sampleBoundaryFrame
  , buildingsFetch := fun _ => .ok sampleBuildingsFrame
  , osmFetch := fun _ => .error "OSM unavailable" }

/-- C2 counterexample: with the transit-stop connector failing, the value the
caller receives from `fetch_datasets_for_request` is byte-identical to the
value for the same request without the failing kind — so no skip report
reaches the caller; the failed kind's name exists only in the second,
log-only component of `_execute_parallel_fetch` (the `failed_datasets` list
that data_service.py merely logs at lines 206-216 and never returns). -/
theorem skip_report_not_returned_to_caller :
    fetch_datasets_for_request sampleEnv "Pankow" ["gebaeude", "oepnv_haltestellen"] =
        fetch_datasets_for_request sampleEnv "Pankow" ["gebaeude"] ∧
      (execute_parallel_fetch sampleEnv "Pankow"
          (all_datasets ["gebaeude", "oepnv_haltestellen"])).toOption.map Prod.snd =
        some ["oepnv_haltestellen"] :=
  ⟨rfl, rfl⟩

/-- C2 amended: when the boundary task succeeds, the caller receives exactly
the ordered successful results — the boundary result first, then one result
per other successfully fetched known kind in request order, failed kinds
excluded; the skipped kind names are recorded in the log-only
`failed_datasets` list and are **not** part of the value returned to the
caller. -/
theorem partial_failure_results_and_log (env : ConnectorEnv) (bezirk : String)
    (kinds : List String) (b : GeoFrame) (hb : env.boundaryFetch = .ok b) :
    execute_parallel_fetch env bezirk (all_datasets kinds) =
        .ok (boundary_raw bezirk b ::
              ((kinds.filter (fun ds => ds ≠ "bezirksgrenzen")).filter
                (fun d => d ∈ DATASET_CONNECTOR_MAPPING)).filterMap
                (fun d => (fetch_single_dataset env bezirk d).toOption),
             ((kinds.filter (fun ds => ds ≠ "bezirksgrenzen")).filter
                (fun d => d ∈ DATASET_CONNECTOR_MAPPING)).filterMap
                (fun d => match fetch_single_dataset env bezirk d with
                  | .error _ => some d
                  | .ok _ => none)) ∧
      fetch_datasets_for_request env bezirk kinds =
        .ok (boundary_raw bezirk b ::
              ((kinds.filter (fun ds => ds ≠ "bezirksgrenzen")).filter
                (fun d => d ∈ DATASET_CONNECTOR_MAPPING)).filterMap
                (fun d => (fetch_single_dataset env bezirk d).toOption)) := by
  have h1 := execute_parallel_fetch_ok bezirk kinds hb
  refine ⟨h1, ?_⟩
  unfold fetch_datasets_for_request
  rw [h1]
  rfl

/-- C2 amended witness: the characterization applied to the concrete run of
the counterexample (boundary and buildings succeed, transit stops fail). -/
theorem partial_failure_results_and_log_witness :
    execute_parallel_fetch sampleEnv "Pankow"
        (all_datasets ["gebaeude", "oepnv_haltestellen"]) =
        .ok (boundary_raw "Pankow" sampleBoundaryFrame ::
              (((["gebaeude", "oepnv_haltestellen"] : List String).filter
                  (fun ds => ds ≠ "bezirksgrenzen")).filter
                (fun d => d ∈ DATASET_CONNECTOR_MAPPING)).filterMap
                (fun d => (fetch_single_dataset sampleEnv "Pankow" d).toOption),
             (((["gebaeude", "oepnv_haltestellen"] : List String).filter
                  (fun ds => ds ≠ "bezirksgrenzen")).filter
                (fun d => d ∈ DATASET_CONNECTOR_MAPPING)).filterMap
                (fun d => match fetch_single_dataset sampleEnv "Pankow" d with
                  | .error _ => some d
                  | .ok _ => none)) ∧
      fetch_datasets_for_request sampleEnv "Pankow" ["gebaeude", "oepnv_haltestellen"] =
        .ok (boundary_raw "Pankow" sampleBoundaryFrame ::
              (((["gebaeude", "oepnv_haltestellen"] : List String).filter
                  (fun ds => ds ≠ "bezirksgrenzen")).filter
                (fun d => d ∈ DATASET_CONNECTOR_MAPPING)).filterMap
                (fun d => (fetch_single_dataset sampleEnv "Pankow" d).toOption)) :=
  partial_failure_results_and_log sampleEnv "Pankow" ["gebaeude", "oepnv_haltestellen"]
    sampleBoundaryFrame rfl

lemma mem_fetch_tail_type {env : ConnectorEnv} {bezirk : String} {kinds : List String}
    {r : RawDataset}
    (hr : r ∈ ((kinds.filter (fun ds => ds ≠ "bezirksgrenzen")).filter
          (fun d => d ∈ DATASET_CONNECTOR_MAPPING)).filterMap
        (fun d => (fetch_single_dataset env bezirk d).toOption)) :
    r.dataset_type ≠ "bezirksgrenzen" := by
  obtain ⟨d, hd, hsome⟩ := List.mem_filterMap.mp hr
  have hd2 : d ≠ "bezirksgrenzen" := by
    have hmem := (List.mem_filter.mp hd).1
    have := (List.mem_filter.mp hmem).2
    simpa using this
  cases hfd : fetch_single_dataset env bezirk d with
  | error e =>
    rw [hfd] at hsome
    cases hsome
  | ok r' =>
    rw [hfd] at hsome
    simp only [Except.toOption, Option.some.injEq] at hsome
    subst hsome
    rw [fetch_single_dataset_type hfd]
    exact hd2

/-- C7: for every requested-kind list — with or without duplicates and
whether or not it names the boundary kind — the fetched result list has the
boundary result first and contains exactly one boundary-kind entry; in the
harmonized output of those results the boundary dataset's features form the
leading block (processed first) and every later feature belongs to a
non-boundary kind. -/
theorem boundary_first_and_unique :
    (∀ (env : ConnectorEnv) (bezirk : String) (kinds : List String) (b : GeoFrame)
        (results : List RawDataset),
      env.boundaryFetch = .ok b →
      fetch_datasets_for_request env bezirk kinds = .ok results →
      results.head? = some (boundary_raw bezirk b) ∧
        (results.filter (fun r => r.dataset_type = "bezirksgrenzen")).length = 1) ∧
      (∀ (env : ConnectorEnv) (penv : GeoEnv) (bezirk : String) (kinds : List String)
          (b : GeoFrame) (results : List RawDataset) (boundary : GeoFrame)
          (frame : HarmFrame) (r : HarmonizeResult),
        env.boundaryFetch = .ok b →
        fetch_datasets_for_request env bezirk kinds = .ok results →
        extract_district_boundary penv results bezirk = .ok boundary →
        process_single_dataset penv (boundary_raw bezirk b) boundary bezirk = .ok frame →
        harmonize_datasets penv results bezirk = .ok r →
        (∀ f ∈ frame.features, f.dataset_type = some "bezirksgrenzen") ∧
          r.harmonized_data.features.take frame.features.length = frame.features ∧
          (∀ f ∈ r.harmonized_data.features.drop frame.features.length,
            f.dataset_type ≠ some "bezirksgrenzen")) := by
  have hfetch : ∀ (env : ConnectorEnv) (bezirk : String) (kinds : List String) (b : GeoFrame),
      env.boundaryFetch = .ok b →
      fetch_datasets_for_request env bezirk kinds =
        .ok (boundary_raw bezirk b ::
          ((kinds.filter (fun ds => ds ≠ "bezirksgrenzen")).filter
            (fun d => d ∈ DATASET_CONNECTOR_MAPPING)).filterMap
            (fun d => (fetch_single_dataset env bezirk d).toOption)) := by
    intro env bezirk kinds b hb
    unfold fetch_datasets_for_request
    rw [execute_parallel_fetch_ok bezirk kinds hb]
    rfl
  constructor
  · intro env bezirk kinds b results hb hf
    rw [hfetch env bezirk kinds b hb] at hf
    cases hf
    constructor
    · rfl
    · rw [List.filter_cons_of_pos (by rfl)]
      rw [List.length_cons]
      have hnil : (((kinds.filter (fun ds => ds ≠ "bezirksgrenzen")).filter
          (fun d => d ∈ DATASET_CONNECTOR_MAPPING)).filterMap
            (fun d => (fetch_single_dataset env bezirk d).toOption)).filter
          (fun r => r.dataset_type = "bezirksgrenzen") = [] := by
        apply List.filter_eq_nil_iff.mpr
        intro r hr
        simpa using mem_fetch_tail_type hr
      rw [hnil]
      rfl
  · intro env penv bezirk kinds b results boundary frame r hb hf hx hp hr
    rw [hfetch env bezirk kinds b hb] at hf
    cases hf
    have hfeat := harmonize_ok_features hx hr
    rw [List.filterMap_cons] at hfeat
    rw [hp] at hfeat
    simp only [Except.toOption, List.map_cons, List.flatten_cons] at hfeat
    refine ⟨?_, ?_, ?_⟩
    · intro f hf'
      exact ((process_single_dataset_ok hp).2 f hf').2
    · rw [hfeat]
      exact List.take_left _ _
    · rw [hfeat, List.drop_left]
      intro f hf'
      obtain ⟨lfs, hlfs, hfin⟩ := List.mem_flatten.mp hf'
      obtain ⟨frame', hframe', rfl⟩ := List.mem_map.mp hlfs
      obtain ⟨rd, hrd, hsome⟩ := List.mem_filterMap.mp hframe'
      cases hpd : process_single_dataset penv rd boundary bezirk with
      | error e =>
        rw [hpd] at hsome
        cases hsome
      | ok fr =>
        rw [hpd] at hsome
        simp only [Except.toOption, Option.some.injEq] at hsome
        subst hsome
        have htype := ((process_single_dataset_ok hpd).2 f hfin).2
        have hrdtype : rd.dataset_type ≠ "bezirksgrenzen" := mem_fetch_tail_type hrd
        rw [htype]
        intro hcontra
        exact hrdtype (Option.some.inj hcontra)

/-- The packaged buildings dataset of the concrete runs. -/
def gebRaw : RawDataset :=
  { dataset_type := "gebaeude"
  , source := "geoportal"
  , geodata := some sampleBuildingsFrame }

/-- The fetched result list of the concrete run `sampleEnv / ["gebaeude"]`. -/
def wResults : List RawDataset := [boundary_raw "Pankow" sampleBoundaryFrame, gebRaw]

/-- The pipeline output for the boundary dataset of the concrete run. -/
def wBoundaryFrameProcessed : HarmFrame :=
  { crs := some TARGET_CRS
  , features := [{ feature_id := some "bezirksgrenzen_0"
                 , dataset_type := some "bezirksgrenzen"
                 , source_system := some "geoportal"
                 , bezirk := some "Pankow"
                 , geom := Geom.valid
                 , original_attributes := [("Gemeinde_name", "Pankow")] }] }

/-- C7 witness: both parts applied to the concrete run (boundary plus one
buildings dataset, fetched and harmonized end to end). -/
theorem boundary_first_and_unique_witness :
    (wResults.head? = some (boundary_raw "Pankow" sampleBoundaryFrame) ∧
        (wResults.filter (fun r => r.dataset_type = "bezirksgrenzen")).length = 1) ∧
      ((∀ f ∈ wBoundaryFrameProcessed.features, f.dataset_type = some "bezirksgrenzen") ∧
        (mk_harmonize_result idEnv sampleBoundaryFrame "Pankow"
            wResults).harmonized_data.features.take
            wBoundaryFrameProcessed.features.length = wBoundaryFrameProcessed.features ∧
        (∀ f ∈ (mk_harmonize_result idEnv sampleBoundaryFrame "Pankow"
            wResults).harmonized_data.features.drop
            wBoundaryFrameProcessed.features.length,
          f.dataset_type ≠ some "bezirksgrenzen")) :=
  ⟨boundary_first_and_unique.1 sampleEnv "Pankow" ["gebaeude"] sampleBoundaryFrame
      wResults rfl (by rfl)
  , boundary_first_and_unique.2 sampleEnv idEnv "Pankow" ["gebaeude"] sampleBoundaryFrame
      wResults sampleBoundaryFrame wBoundaryFrameProcessed
      (mk_harmonize_result idEnv sampleBoundaryFrame "Pankow" wResults)
      rfl (by rfl) (by rfl) (by rfl) (by rfl)⟩

/-- C10: a requested kind outside the connector mapping is silently dropped —
no task is launched for it, no error raised, no skip entry recorded; both the
returned results and the log-only skip list are identical to those of the
same request with the kind removed (data_service.py lines 143-149 only log a
warning for unknown kinds). -/
theorem unknown_kind_silently_dropped (env : ConnectorEnv) (bezirk : String)
    (ks1 ks2 : List String) (k : String) (hk : k ∉ DATASET_CONNECTOR_MAPPING) :
    execute_parallel_fetch env bezirk (all_datasets (ks1 ++ k :: ks2)) =
        execute_parallel_fetch env bezirk (all_datasets (ks1 ++ ks2)) ∧
      fetch_datasets_for_request env bezirk (ks1 ++ k :: ks2) =
        fetch_datasets_for_request env bezirk (ks1 ++ ks2) := by
  have hbez : ¬ k = "bezirksgrenzen" := by
    intro h0
    exact hk (h0 ▸ (by decide : ("bezirksgrenzen" : String) ∈ DATASET_CONNECTOR_MAPPING))
  have core : ((ks1 ++ k :: ks2).filter (fun ds => ds ≠ "bezirksgrenzen")).filter
        (fun d => d ∈ DATASET_CONNECTOR_MAPPING) =
      ((ks1 ++ ks2).filter (fun ds => ds ≠ "bezirksgrenzen")).filter
        (fun d => d ∈ DATASET_CONNECTOR_MAPPING) := by
    simp only [List.filter_append]
    congr 1
    rw [List.filter_cons_of_pos (by simpa using hbez)]
    rw [List.filter_cons_of_neg (by simpa using hk)]
  have tasksEq : (all_datasets (ks1 ++ k :: ks2)).filter
        (fun d => d ∈ DATASET_CONNECTOR_MAPPING) =
      (all_datasets (ks1 ++ ks2)).filter (fun d => d ∈ DATASET_CONNECTOR_MAPPING) := by
    rw [fetch_tasks_eq, fetch_tasks_eq, core]
  constructor
  · unfold execute_parallel_fetch
    rw [tasksEq]
  · unfold fetch_datasets_for_request execute_parallel_fetch
    rw [tasksEq]

/-- C10 witness: the drop theorem applied to the concrete unknown kind
`"strassenbaeume"`. -/
theorem unknown_kind_silently_dropped_witness :
    execute_parallel_fetch sampleEnv "Pankow"
        (all_datasets (["gebaeude"] ++ "strassenbaeume" :: [])) =
        execute_parallel_fetch sampleEnv "Pankow" (all_datasets (["gebaeude"] ++ [])) ∧
      fetch_datasets_for_request sampleEnv "Pankow" (["gebaeude"] ++ "strassenbaeume" :: []) =
        fetch_datasets_for_request sampleEnv "Pankow" (["gebaeude"] ++ []) :=
  unknown_kind_silently_dropped sampleEnv "Pankow" ["gebaeude"] [] "strassenbaeume"
    (by decide)

end UrbanIQ
